import Mathlib

/-
  Verification development for the ChannelUsers repository
  (YouTube live-chat → Telegram notification relay).

  Shallow embedding of the core pipeline, translated from the source:
    - src/main.py          : dedup store operations, stream bridge, ingestion
                             loop, supervisor retry loop
    - src/telegram_handler.py : TelegramHandler.send_message_with_retry

  External effects (the Postgres pool, the aiohttp session, the Telegram
  bot, clocks) are modelled as explicit data: the store is an association
  list keyed by channel_id, and the behaviour of the network and the
  messaging endpoint during one delivery attempt is an explicit
  environment record.  Exceptions are modelled as values: a Python
  exception is a record of the attributes the source inspects
  (type-name substring, message substring, the parse of the
  retry-after seconds).
-/

namespace ChannelUsers

/-! ## Dedup Store (src/main.py lines 124-161)

One row of the youtube_users table.  first_seen has DEFAULT
CURRENT_TIMESTAMP, modelled as a Nat supplied at insert time;
telegram_sent_at is NULL until mark_user_sent_to_telegram runs. -/

structure UserRecord where
  channel_name : Option String
  channel_url : Option String
  first_seen : Nat
  sent_to_telegram : Bool
  telegram_sent_at : Option Nat
  data : String
deriving DecidableEq, Repr

/-- The youtube_users table: rows in insertion order, keyed by channel_id
(the PRIMARY KEY). -/
abbrev Store := List (String × UserRecord)

/-- SELECT by primary key: the first row whose channel_id matches. -/
def lookupUser : Store → String → Option UserRecord
  | [], _ => none
  | (k, r) :: rest, cid => if k = cid then some r else lookupUser rest cid

/-- src/main.py lines 147-153: INSERT ... VALUES ($1,$2,$3,$4,FALSE)
ON CONFLICT (channel_id) DO NOTHING.  A row already keyed by cid makes
the statement a no-op; otherwise a fresh row is appended with
sent_to_telegram = FALSE and first_seen defaulted to now. -/
def save_user (st : Store) (now : Nat) (cid : String)
    (channel_name channel_url : Option String) (data : String) : Store :=
  match lookupUser st cid with
  | some _ => st
  | none => st ++ [(cid, ⟨channel_name, channel_url, now, false, none, data⟩)]

/-- src/main.py lines 155-161: UPDATE youtube_users SET
sent_to_telegram = TRUE, telegram_sent_at = CURRENT_TIMESTAMP
WHERE channel_id = $1.  Every row matching the key is updated; a key
with no row leaves the table untouched (UPDATE matches zero rows). -/
def mark_user_sent_to_telegram : Store → String → Nat → Store
  | [], _, _ => []
  | (k, r) :: rest, cid, now =>
    if k = cid then
      (k, { r with sent_to_telegram := true, telegram_sent_at := some now })
        :: mark_user_sent_to_telegram rest cid now
    else (k, r) :: mark_user_sent_to_telegram rest cid now

/-- src/main.py lines 140-145: SELECT sent_to_telegram ... WHERE
channel_id = $1, with the Python idiom fetchval(...) or False turning
an absent row (NULL) into False. -/
def is_user_sent_to_telegram (st : Store) (cid : String) : Bool :=
  match lookupUser st cid with
  | some r => r.sent_to_telegram
  | none => false

/-! ### Store lemmas -/

theorem lookupUser_append_of_none (st : Store) (cid : String) (r : UserRecord)
    (h : lookupUser st cid = none) :
    lookupUser (st ++ [(cid, r)]) cid = some r := by
  induction st with
  | nil => simp [lookupUser]
  | cons hd tl ih =>
    obtain ⟨k, rec⟩ := hd
    by_cases hk : k = cid
    · simp [lookupUser, hk] at h
    · simp only [lookupUser, List.cons_append, if_neg hk] at h ⊢
      exact ih h

theorem lookupUser_save_user_self (st : Store) (now : Nat) (cid : String)
    (n u : Option String) (d : String) :
    (lookupUser (save_user st now cid n u d) cid).isSome := by
  unfold save_user
  cases h : lookupUser st cid with
  | some r => simp [h]
  | none => simp [lookupUser_append_of_none st cid _ h]

theorem mark_absent_id_eq (st : Store) (cid : String) (now : Nat)
    (h : lookupUser st cid = none) :
    mark_user_sent_to_telegram st cid now = st := by
  induction st with
  | nil => rfl
  | cons hd tl ih =>
    obtain ⟨k, r⟩ := hd
    by_cases hk : k = cid
    · simp [lookupUser, hk] at h
    · simp only [lookupUser, if_neg hk] at h
      simp [mark_user_sent_to_telegram, if_neg hk, ih h]

theorem mark_preserves_keys (st : Store) (cid : String) (now : Nat) :
    (mark_user_sent_to_telegram st cid now).map Prod.fst = st.map Prod.fst := by
  induction st with
  | nil => rfl
  | cons hd tl ih =>
    obtain ⟨k, r⟩ := hd
    by_cases hk : k = cid
    · simp [mark_user_sent_to_telegram, hk, ih]
    · simp [mark_user_sent_to_telegram, hk, ih]

/-! ## Delivery Subroutine (src/telegram_handler.py lines 55-150)

TelegramHandler.send_message_with_retry.  The external world is
abstracted per attempt: what session.get(profile_pic_url) does, and
what each of the four bot calls would do if reached.  A Python
exception is modelled by the three attributes the source inspects:
whether the type name contains the substring RetryAfter
(line 132-133), whether the message matches the parse-error test
of lines 87 and 113 (substring entities, or parse case-insensitively),
and the result of int(str(e).split()[-2]) at line 135, which is none
when that expression itself raises (too few words, or a non-integer
token). -/

structure PyExn where
  typeNameHasRetryAfter : Bool
  msgHasParse : Bool
  retryAfterParse : Option Nat
deriving DecidableEq, Repr

/-- A generic exception: nothing the handlers test for holds of it.
Also the shape of the raise Exception(... HTTP status ...) at
telegram_handler.py line 101 and of a fetch failure. -/
def genericExn : PyExn := ⟨false, false, none⟩

/-- Outcome of session.get(profile_pic_url): an HTTP response with a
status code, or the get itself raising (which includes the case
profile_pic_url is None, since the source always calls get,
line 71-73). -/
inductive FetchResult where
  | ok (status : Nat)
  | exn (e : PyExn)
deriving DecidableEq, Repr

/-- Behaviour of the endpoint during one attempt of the loop at
telegram_handler.py lines 69-129.  none means the call succeeds;
some e means it raises e. -/
structure AttemptEnv where
  fetch : FetchResult
  sendPhotoMd : Option PyExn
  sendPhotoPlain : Option PyExn
  sendTextMd : Option PyExn
  sendTextPlain : Option PyExn
deriving DecidableEq, Repr

/-- Which send call succeeded, ending the attempt body. -/
inductive SendPath where
  | photoMd
  | photoPlain
  | textMd
  | textPlain
deriving DecidableEq, Repr

/-- telegram_handler.py lines 72-101: the inner try around the avatar
fetch and the photo sends.  On a 200 status, send_photo with
MarkdownV2; a parse-indicating rejection downgrades to an unformatted
send_photo within the same attempt (lines 86-99); any other error, or
the downgraded send failing, propagates out of this block.  A non-200
status raises at line 101; a fetch exception propagates. -/
def imgBlock (env : AttemptEnv) : Except PyExn SendPath :=
  match env.fetch with
  | .exn e => .error e
  | .ok status =>
    if status = 200 then
      match env.sendPhotoMd with
      | none => .ok .photoMd
      | some e =>
        if e.msgHasParse then
          match env.sendPhotoPlain with
          | none => .ok .photoPlain
          | some e2 => .error e2
        else .error e
    else .error genericExn

/-- telegram_handler.py lines 71-124: one attempt body.  Any exception
from the img block (fetch failure or photo-send failure alike) is
caught at line 102 and the attempt falls back to send_message with
MarkdownV2; a parse-indicating rejection downgrades to an unformatted
send_message (lines 112-124); other text-send errors propagate to the
attempt-level handler at line 131. -/
def attemptBody (env : AttemptEnv) : Except PyExn SendPath :=
  match imgBlock env with
  | .ok p => .ok p
  | .error _ =>
    match env.sendTextMd with
    | none => .ok .textMd
    | some e =>
      if e.msgHasParse then
        match env.sendTextPlain with
        | none => .ok .textPlain
        | some e2 => .error e2
      else .error e

/-- Observable outcome of one send_message_with_retry call.
result is some b when the function returns the boolean b, and none
when an exception escapes it (the int(str(e).split()[-2]) parse at
line 135 raising inside the except handler).  sleeps records every
asyncio.sleep duration in order; attemptsUsed counts the attempt
bodies that ran. -/
structure DeliveryTrace where
  result : Option Bool
  attemptsUsed : Nat
  sleeps : List Nat
deriving DecidableEq, Repr

/-- telegram_handler.py lines 69-150: the for-loop over
attempt in range(1, max_attempts + 1), written with explicit fuel
(the number of loop iterations left).  On success: sleep
base_delay * attempt with base_delay = 3 (lines 126-128) and return
True.  On an exception whose type name contains RetryAfter: parse the
retry-after seconds from the message; a successful parse sleeps
retry_after + 1 and continues (line 137), a failed parse is itself an
uncaught exception escaping the function.  Otherwise sleep 5 * attempt
and continue when attempts remain (lines 138-143), else return False
(lines 144-148).  Falling out of the loop returns False (line 150). -/
def sendLoop (env : Nat → AttemptEnv) (maxAttempts : Nat) :
    Nat → Nat → List Nat → DeliveryTrace
  | 0, attempt, acc => ⟨some false, attempt - 1, acc⟩
  | fuel + 1, attempt, acc =>
    match attemptBody (env attempt) with
    | .ok _ => ⟨some true, attempt, acc ++ [3 * attempt]⟩
    | .error e =>
      if e.typeNameHasRetryAfter then
        match e.retryAfterParse with
        | some n => sendLoop env maxAttempts fuel (attempt + 1) (acc ++ [n + 1])
        | none => ⟨none, attempt, acc⟩
      else if attempt < maxAttempts then
        sendLoop env maxAttempts fuel (attempt + 1) (acc ++ [5 * attempt])
      else ⟨some false, attempt, acc⟩

/-- send_message_with_retry with its default max_attempts = 3 supplied
by every caller in src/main.py. -/
def send_message_with_retry (env : Nat → AttemptEnv) (maxAttempts : Nat) :
    DeliveryTrace :=
  sendLoop env maxAttempts maxAttempts 1 []

/-! ## Ingestion Loop (src/main.py lines 246-286) -/

/-- One chat event, reduced to the author fields the loop reads
(src/main.py lines 250-255).  raw stands for the author dict stored
as JSONB. -/
structure Event where
  author_id : Option String
  author_name : Option String
  author_url : Option String
  images : List String
  raw : String
deriving DecidableEq, Repr

/-- src/main.py lines 247-286: the per-event body of the first loop.
An event without an author id is skipped.  Otherwise save_user runs,
then the is_user_sent_to_telegram check skips already-delivered ids.
The try at lines 270-283 awaits send_message_with_retry and then
unconditionally awaits mark_user_sent_to_telegram: the boolean the
subroutine returns is discarded, so the mark is skipped only when an
exception escaped the send (DeliveryTrace.result = none).  The
channel_url fallback of lines 266-267 only feeds the caption, which
AttemptEnv abstracts.  Returns the new store and the list of ids for
which send_message_with_retry was invoked. -/
def processEvent (env : Nat → AttemptEnv) (st : Store) (ev : Event)
    (now : Nat) : Store × List String :=
  match ev.author_id with
  | none => (st, [])
  | some cid =>
    let st1 := save_user st now cid ev.author_name ev.author_url ev.raw
    if is_user_sent_to_telegram st1 cid then (st1, [])
    else
      match (send_message_with_retry env 3).result with
      | some _ => (mark_user_sent_to_telegram st1 cid now, [cid])
      | none => (st1, [cid])

/-- The first ingestion loop over a finite stream of events
(src/main.py line 246, async for over the bridged chat).  Per-event
errors are caught at line 284 and the loop continues; processEvent is
total so that handler is never exercised here. -/
def runLoop1 (env : Nat → AttemptEnv) : List Event → Store → Store × List String
  | [], st => (st, [])
  | ev :: rest, st =>
    let (st1, s1) := processEvent env st ev 0
    let (st2, s2) := runLoop1 env rest st1
    (st2, s1 ++ s2)

/-- src/main.py lines 299-325: the second loop that runs after the
retry loop breaks cleanly.  It re-opens the chat and processes events
with save_user and send_message_with_retry but with NO
is_user_sent_to_telegram check and NO mark_user_sent_to_telegram
call, and no per-event try: an exception escaping the send aborts the
loop. -/
def runLoop2 (env : Nat → AttemptEnv) : List Event → Store → Store × List String
  | [], st => (st, [])
  | ev :: rest, st =>
    match ev.author_id with
    | none =>
      runLoop2 env rest st
    | some cid =>
      let st1 := save_user st 0 cid ev.author_name ev.author_url ev.raw
      match (send_message_with_retry env 3).result with
      | some _ =>
        let (st2, s2) := runLoop2 env rest st1
        (st2, cid :: s2)
      | none => (st1, [cid])

/-- One full pass of main after a successful connection: the first
loop streams events1, the stream ends cleanly, break exits the retry
loop (line 289), and control falls to line 299 where the chat is
re-opened and the second loop streams events2.  Returns the final
store and all send invocations in order. -/
def mainRun (env : Nat → AttemptEnv) (events1 events2 : List Event) :
    Store × List String :=
  let (st1, s1) := runLoop1 env events1 []
  let (st2, s2) := runLoop2 env events2 st1
  (st2, s1 ++ s2)

/-! ## Supervisor (src/main.py lines 229-299) -/

/-- Actions the supervisor performs, in order: opening the feed
(chat_downloader.get_chat, line 241), sleeping between reconnect
attempts, re-raising out of main (line 297), breaking out of the
retry loop (line 289). -/
inductive SupAction where
  | getChatCall
  | sleepFor (d : Nat)
  | reraise
  | breakLoop
deriving DecidableEq, Repr

/-- src/main.py lines 230-299: the while True retry loop.  The body
calls get_chat; if connecting or streaming raises, the except block
at lines 291-297 prints diagnostics and re-raises, so the loop never
runs a second iteration and no sleep happens (retry_delay at line 213
is never read).  If the body completes, break exits the loop and
line 299 immediately calls get_chat again for the duplicated second
loop.  Returns the action trace and whether main terminated by an
escaping exception. -/
def supervisorRun (connectFails : Bool) : List SupAction × Bool :=
  if connectFails then ([.getChatCall, .reraise], true)
  else ([.getChatCall, .breakLoop, .getChatCall], false)

/-! ## Stream Bridge (src/main.py lines 195-209) -/

/-- What the worker thread pushes onto the queue.Queue: items of the
sync iterator, or the sentinel object. -/
inductive QItem (α : Type) where
  | item (a : α)
  | sentinel
deriving DecidableEq, Repr

/-- How the blocking source ends after yielding its items: normal
exhaustion, or raising an exception out of the for-loop. -/
inductive SourceEnd where
  | exhausted
  | errored
deriving DecidableEq, Repr

/-- A blocking source: the items it yields, then how it ends. -/
structure SyncSource (α : Type) where
  items : List α
  ending : SourceEnd
deriving DecidableEq, Repr

/-- src/main.py lines 198-201, the worker body run(): each item is
put on the queue, and the sentinel is put after the for-loop ends.
When the source raises, the exception propagates out of run() and the
thread dies: the sentinel put at line 201 never executes and nothing
records the error. -/
def workerPushes {α : Type} (src : SyncSource α) : List (QItem α) :=
  match src.ending with
  | .exhausted => src.items.map .item ++ [.sentinel]
  | .errored => src.items.map .item

/-- What the consumer observes: the stream completes after yielding
xs, or it blocks forever after yielding xs (q.get at line 205 waits
for an item that will never arrive because the worker is dead). -/
inductive ConsumeOutcome (α : Type) where
  | completed (xs : List α)
  | blockedForever (xs : List α)
deriving DecidableEq, Repr

/-- src/main.py lines 203-209, the async generator gen(): loop
reading q.get; the sentinel breaks the loop, an item is yielded, and
an empty queue with a finished worker blocks the read forever. -/
def consumeQueue {α : Type} : List (QItem α) → ConsumeOutcome α
  | [] => .blockedForever []
  | .sentinel :: _ => .completed []
  | .item a :: rest =>
    match consumeQueue rest with
    | .completed xs => .completed (a :: xs)
    | .blockedForever xs => .blockedForever (a :: xs)

/-- The whole bridge: the consumer runs against everything the worker
managed to push. -/
def to_async_iter {α : Type} (src : SyncSource α) : ConsumeOutcome α :=
  consumeQueue (workerPushes src)

/-! ## Concrete scenarios shared by the theorems -/

/-- An endpoint that fails every attempt with a generic error: the
avatar fetch raises and the text send raises an exception that is
neither RetryAfter-typed nor parse-indicating. -/
def envAllGenericFail : Nat → AttemptEnv :=
  fun _ => ⟨.exn genericExn, none, none, some genericExn, none⟩

/-- An endpoint where every attempt succeeds on the text path (the
avatar fetch raises, the text send succeeds). -/
def envAllSuccess : Nat → AttemptEnv :=
  fun _ => ⟨.exn genericExn, none, none, none, none⟩

/-- An endpoint whose text send raises a RetryAfter-typed exception
whose message does not parse: int(str(e).split()[-2]) raises. -/
def envUnparsableRateLimit : Nat → AttemptEnv :=
  fun _ => ⟨.exn genericExn, none, none, some ⟨true, false, none⟩, none⟩

/-- Attempt 1 is rate-limited with retry-after 5 (parsable message);
attempt 2 succeeds on the text path. -/
def envRateLimit5ThenOk : Nat → AttemptEnv := fun i =>
  if i = 1 then ⟨.exn genericExn, none, none, some ⟨true, false, some 5⟩, none⟩
  else ⟨.exn genericExn, none, none, none, none⟩

/-- The avatar fetch returns HTTP 404 and the text send succeeds. -/
def envAvatar404 : Nat → AttemptEnv :=
  fun _ => ⟨.ok 404, none, none, none, none⟩

/-- A concrete chat event with a usable author id. -/
def evAlice : Event :=
  ⟨some "UCalice", some "Alice", some "https://yt/alice", [], "raw-alice"⟩

/-- A concrete pre-existing store row keyed by a different id. -/
def recBob : UserRecord := ⟨some "Bob", none, 0, false, none, "raw-bob"⟩

/-! ## Helper lemmas for the delivery subroutine -/

/-- Rate-limit errors reaching the attempt-level handler all carry a
parsable retry-after message. -/
def parsableRateLimits (env : Nat → AttemptEnv) : Prop :=
  ∀ i e, attemptBody (env i) = Except.error e →
    e.typeNameHasRetryAfter = true → e.retryAfterParse.isSome

theorem sendLoop_result_isSome (env : Nat → AttemptEnv) (maxA : Nat)
    (h : parsableRateLimits env) :
    ∀ fuel attempt acc, ((sendLoop env maxA fuel attempt acc).result).isSome := by
  intro fuel
  induction fuel with
  | zero => intro attempt acc; simp [sendLoop]
  | succ f ih =>
    intro attempt acc
    simp only [sendLoop]
    cases hb : attemptBody (env attempt) with
    | ok p => simp
    | error e =>
      cases hra : e.typeNameHasRetryAfter with
      | true =>
        have hp := h attempt e hb hra
        cases hpe : e.retryAfterParse with
        | none => simp [hpe] at hp
        | some n => simp [hra, hpe]; exact ih _ _
      | false =>
        by_cases hlt : attempt < maxA
        · simp [hra, hlt]; exact ih _ _
        · simp [hra, hlt]

theorem save_user_of_found (st : Store) (now : Nat) (cid : String)
    (n u : Option String) (d : String) (r : UserRecord)
    (h : lookupUser st cid = some r) :
    save_user st now cid n u d = st := by
  simp [save_user, h]

/-! ## Claims -/

/-- C1: the claim says the Ingestion Loop calls
mark_user_sent_to_telegram only when the Delivery Subroutine call
succeeded, and that a reported failure leaves the delivered flag
false.  The code violates this: src/main.py lines 271-279 discard the
boolean that send_message_with_retry returns, and the subroutine
signals exhaustion by returning False, not by raising
(telegram_handler.py lines 144-148), so the except branch guarding
the mark never fires on a reported failure.  At a fresh event whose
delivery fails all three attempts with generic errors, the subroutine
reports failure (some false) yet the stored flag ends up true. -/
theorem C1_mark_called_despite_reported_failure :
    (send_message_with_retry envAllGenericFail 3).result = some false ∧
    is_user_sent_to_telegram (processEvent envAllGenericFail [] evAlice 0).1
      "UCalice" = true := by
  constructor <;> decide

/-- C2 counterexample: the claim says no exception escapes
send_message_with_retry for any exception raised by the endpoint.
At an input whose text send raises a RetryAfter-typed exception with
an unparsable message, the int(str(e).split()[-2]) expression at
telegram_handler.py line 135 raises inside the except handler and
escapes: the function does not return a boolean (result = none). -/
theorem C2_exception_escapes_on_unparsable_rate_limit :
    (send_message_with_retry envUnparsableRateLimit 3).result = none := by
  decide

/-- C2 amended: send_message_with_retry returns a boolean and lets no
exception escape provided every rate-limit (RetryAfter-typed) error
reaching the attempt-level handler carries a message whose
second-to-last word parses as the retry-after seconds. -/
theorem C2_returns_bool_when_rate_limits_parsable (env : Nat → AttemptEnv)
    (maxA : Nat) (h : parsableRateLimits env) :
    ((send_message_with_retry env maxA).result).isSome :=
  sendLoop_result_isSome env maxA h maxA 1 []

/-- C2 witness: the all-generic-failure endpoint satisfies the
parsability condition and the subroutine returns a boolean on it. -/
theorem C2_witness :
    parsableRateLimits envAllGenericFail ∧
    ((send_message_with_retry envAllGenericFail 3).result).isSome := by
  have h : parsableRateLimits envAllGenericFail := by
    intro i e he hra
    simp [attemptBody, imgBlock, envAllGenericFail, genericExn] at he
    rw [← he] at hra
    simp [genericExn] at hra
  exact ⟨h, C2_returns_bool_when_rate_limits_parsable envAllGenericFail 3 h⟩

/-- C3: the claim says exhaustion pushes the end-of-stream marker and
the consumer terminates cleanly (true: src/main.py line 201), and that
a source error is captured and re-raised to the next read (false: the
exception propagates out of run() before the sentinel put, the worker
thread dies, nothing is pushed, and the consumer blocks forever on
q.get at line 205).  Evaluated at a source yielding two items. -/
theorem C3_source_error_lost_and_consumer_blocked :
    to_async_iter (SyncSource.mk [10, 20] SourceEnd.exhausted) =
      ConsumeOutcome.completed [10, 20] ∧
    QItem.sentinel ∈ workerPushes (SyncSource.mk ([10, 20] : List Nat)
      SourceEnd.exhausted) ∧
    to_async_iter (SyncSource.mk [10, 20] SourceEnd.errored) =
      ConsumeOutcome.blockedForever [10, 20] ∧
    (workerPushes (SyncSource.mk ([10, 20] : List Nat)
      SourceEnd.errored)).count QItem.sentinel = 0 := by
  refine ⟨by decide, by decide, by decide, by decide⟩

/-- C4: the claim says a feed-connection error makes the supervisor
wait at least the minimum backoff and call get_chat again, and never
terminates the process by itself.  The code violates this: the except
block at src/main.py lines 291-297 prints diagnostics and re-raises,
so on a failing connection the trace holds a single get_chat call,
no sleep, and main terminates by the escaping exception (retry_delay
at line 213 is never used). -/
theorem C4_feed_error_reraised_without_backoff :
    supervisorRun true = ([SupAction.getChatCall, SupAction.reraise], true) ∧
    (supervisorRun true).1.countP
      (fun a => match a with | SupAction.sleepFor _ => true | _ => false) = 0 ∧
    (supervisorRun true).1.count SupAction.getChatCall = 1 := by
  refine ⟨by decide, by decide, by decide⟩

/-- C5: the claim says a participant already marked sent never
receives another notification within the same run.  The code violates
this through the duplicated loop at src/main.py lines 299-325, which
runs after the first stream ends cleanly and sends without consulting
is_user_sent_to_telegram: one event for UCalice delivered and marked
in the first loop, followed by one event for UCalice in the second
loop, produces two send invocations for the same id. -/
theorem C5_second_loop_resends_marked_participant :
    is_user_sent_to_telegram (runLoop1 envAllSuccess [evAlice] []).1
      "UCalice" = true ∧
    (mainRun envAllSuccess [evAlice] [evAlice]).2 = ["UCalice", "UCalice"] ∧
    ((mainRun envAllSuccess [evAlice] [evAlice]).2).count "UCalice" = 2 := by
  refine ⟨by decide, by decide, by decide⟩

/-- C6: a rate-limited attempt sleeps retry-after + 1 seconds,
proceeds to the next attempt, and counts against max_attempts: with a
parsable RetryAfter of n on attempt 1 and success on attempt 2, the
subroutine returns true after exactly 2 attempts with sleep trace
[n + 1, 6] (the 6 is the pacing sleep 3 * 2 after success), whose sum
is at least 5. -/
theorem C6_rate_limit_sleep_and_attempt_count (env : Nat → AttemptEnv)
    (n : Nat) (e : PyExn) (p : SendPath)
    (h1 : attemptBody (env 1) = Except.error e)
    (hra : e.typeNameHasRetryAfter = true)
    (hp : e.retryAfterParse = some n)
    (h2 : attemptBody (env 2) = Except.ok p) :
    send_message_with_retry env 3 = ⟨some true, 2, [n + 1, 6]⟩ ∧
    5 ≤ (send_message_with_retry env 3).sleeps.sum := by
  have hrun : send_message_with_retry env 3 = ⟨some true, 2, [n + 1, 6]⟩ := by
    unfold send_message_with_retry
    simp [sendLoop, h1, hra, hp, h2]
  refine ⟨hrun, ?_⟩
  rw [hrun]
  simp

/-- C6 witness: retry-after 5 on attempt 1, success on attempt 2. -/
theorem C6_witness :
    attemptBody (envRateLimit5ThenOk 1) =
      Except.error ⟨true, false, some 5⟩ ∧
    attemptBody (envRateLimit5ThenOk 2) = Except.ok SendPath.textMd ∧
    (send_message_with_retry envRateLimit5ThenOk 3 = ⟨some true, 2, [6, 6]⟩ ∧
      5 ≤ (send_message_with_retry envRateLimit5ThenOk 3).sleeps.sum) := by
  refine ⟨rfl, rfl, ?_⟩
  exact C6_rate_limit_sleep_and_attempt_count envRateLimit5ThenOk 5
    ⟨true, false, some 5⟩ SendPath.textMd rfl rfl rfl rfl

/-- C7: with max_attempts = 3 and every attempt failing with a
generic (non-RetryAfter) error, the subroutine runs exactly 3
attempts, sleeps 5 * attempt after each non-final failure (trace
[5, 10], nothing after the third), and returns false. -/
theorem C7_generic_failures_exhaust_three_attempts (env : Nat → AttemptEnv)
    (e1 e2 e3 : PyExn)
    (h1 : attemptBody (env 1) = Except.error e1)
    (hr1 : e1.typeNameHasRetryAfter = false)
    (h2 : attemptBody (env 2) = Except.error e2)
    (hr2 : e2.typeNameHasRetryAfter = false)
    (h3 : attemptBody (env 3) = Except.error e3)
    (hr3 : e3.typeNameHasRetryAfter = false) :
    send_message_with_retry env 3 = ⟨some false, 3, [5, 10]⟩ := by
  unfold send_message_with_retry
  simp [sendLoop, h1, hr1, h2, hr2, h3, hr3]

/-- C7 witness: the all-generic-failure endpoint. -/
theorem C7_witness :
    attemptBody (envAllGenericFail 1) = Except.error genericExn ∧
    genericExn.typeNameHasRetryAfter = false ∧
    send_message_with_retry envAllGenericFail 3 = ⟨some false, 3, [5, 10]⟩ := by
  refine ⟨rfl, rfl, ?_⟩
  exact C7_generic_failures_exhaust_three_attempts envAllGenericFail
    genericExn genericExn genericExn rfl rfl rfl rfl rfl rfl

/-- C8: when the avatar fetch fails (any non-200 status or a fetch
exception, which includes an absent avatar URL since session.get is
always called) and the caption-only text send succeeds, the attempt
succeeds within the same attempt through the text fallback of
telegram_handler.py lines 102-111, and the subroutine returns true
after one attempt. -/
theorem C8_text_fallback_on_avatar_failure (env : Nat → AttemptEnv)
    (hfetch : (env 1).fetch ≠ FetchResult.ok 200)
    (htext : (env 1).sendTextMd = none) :
    attemptBody (env 1) = Except.ok SendPath.textMd ∧
    send_message_with_retry env 3 = ⟨some true, 1, [3]⟩ := by
  have himg : ∃ e, imgBlock (env 1) = Except.error e := by
    cases hf : (env 1).fetch with
    | exn e => exact ⟨e, by simp [imgBlock, hf]⟩
    | ok s =>
      have hs : ¬ s = 200 := fun h => hfetch (h ▸ hf)
      exact ⟨genericExn, by simp [imgBlock, hf, hs]⟩
  obtain ⟨e, he⟩ := himg
  have hbody : attemptBody (env 1) = Except.ok SendPath.textMd := by
    simp [attemptBody, he, htext]
  refine ⟨hbody, ?_⟩
  unfold send_message_with_retry
  simp [sendLoop, hbody]

/-- C8 witness: HTTP 404 on the avatar fetch, text send succeeding. -/
theorem C8_witness :
    (envAvatar404 1).fetch ≠ FetchResult.ok 200 ∧
    (envAvatar404 1).sendTextMd = none ∧
    (attemptBody (envAvatar404 1) = Except.ok SendPath.textMd ∧
      send_message_with_retry envAvatar404 3 = ⟨some true, 1, [3]⟩) :=
  ⟨by decide, rfl,
    C8_text_fallback_on_avatar_failure envAvatar404 (by decide) rfl⟩

/-- C9: a second save_user with the same id and arbitrary different
name, url, raw data and timestamp is a no-op: the ON CONFLICT
(channel_id) DO NOTHING insert leaves the first-written row unchanged
and creates no second row (the resulting store is equal to the store
after the first call; the operation is total, so nothing raises). -/
theorem C9_save_user_idempotent (st : Store) (now now2 : Nat) (cid : String)
    (n u n2 u2 : Option String) (d d2 : String) :
    save_user (save_user st now cid n u d) now2 cid n2 u2 d2 =
      save_user st now cid n u d := by
  have hs := lookupUser_save_user_self st now cid n u d
  cases h : lookupUser (save_user st now cid n u d) cid with
  | none => rw [h] at hs; simp at hs
  | some r => exact save_user_of_found _ now2 cid n2 u2 d2 r h

/-- C10: mark_user_sent_to_telegram never changes the set of stored
ids (the UPDATE matches rows, never inserts), and on an id with no
row it leaves the store entirely unchanged; so the stored id set
grows only through save_user. -/
theorem C10_mark_never_creates_record (st : Store) (cid : String) (now : Nat) :
    (mark_user_sent_to_telegram st cid now).map Prod.fst = st.map Prod.fst ∧
    (lookupUser st cid = none → mark_user_sent_to_telegram st cid now = st) :=
  ⟨mark_preserves_keys st cid now, mark_absent_id_eq st cid now⟩

/-- C10 witness: marking an absent id on a one-row store. -/
theorem C10_witness :
    lookupUser [("UCbob", recBob)] "UCalice" = none ∧
    mark_user_sent_to_telegram [("UCbob", recBob)] "UCalice" 7 =
      [("UCbob", recBob)] :=
  ⟨by decide, (C10_mark_never_creates_record [("UCbob", recBob)]
    "UCalice" 7).2 (by decide)⟩

end ChannelUsers
